import Mathlib

/-!
Shallow embedding of `ReadonlyMiraAmm`
(`src/packages/mira-v1/src/readonly_mira_amm.rs` of Walter-Phillips/mira-v1-rs).

The module is a simulation facade over a ledger node and a deployed AMM
contract.  Every interaction with a collaborator (the balance/input resolver
`get_transaction_inputs_outputs`, the four operation scripts, and the nine
read-only contract methods) is represented by a field of an explicit
environment `Env W`; each field is state-passing over an abstract world `W`
so that mutation of the outside world, were it to happen, is observable.
Machine integers (`u64`, `u32`, `u8`) are modelled as `Nat`: the module does
no arithmetic of its own, so overflow never enters the picture.

Rust's `Result` is `Except Err`; a function that can also terminate
abnormally (the Rust source calls `.unwrap()` in several places) returns
`Outcome`, whose `panicked` constructor records abnormal termination as
distinct from both success and an error return.
-/

/-- 32-byte asset identifier, modelled as `Nat`. -/
abbrev AssetId := Nat

/-- Contract identifier, modelled as `Nat`. -/
abbrev ContractId := Nat

/-- An on-chain identity (address), modelled as `Nat`. -/
abbrev Identity := Nat

/-- Opaque error payload carried by a failed collaborator call. -/
abbrev Err := Nat

/-- A parsed secret key; only its derived address matters here. -/
abbrev SecretKey := Nat

/-- The node connection handle; opaque to this module. -/
abbrev Provider := Nat

/-- Opaque pool-state payload returned unmodified by `pool_metadata`. -/
abbrev PoolMetadata := Nat

/-- A resolved transaction input, opaque to this module (produced by the
external builder and passed through unchanged). -/
abbrev TxInput := Nat

/-- A transaction output, opaque to this module. -/
abbrev TxOutput := Nat

/-- `PoolId` from `crate::interface`: an ordered pair of asset identifiers
plus the stable/volatile flag.  The Rust code accesses the components as
`pool_id.0` and `pool_id.1`; here they are `fst` and `snd`. -/
structure PoolId where
  fst : AssetId
  snd : AssetId
  isStable : Bool
  deriving DecidableEq, Repr

/-- `Asset` from `crate::interface`: an asset id with an amount. -/
structure Asset where
  id : AssetId
  amount : Nat
  deriving DecidableEq, Repr

/-- `LpAssetInfo` from `crate::interface`. -/
structure LpAssetInfo where
  asset_id : AssetId
  name : String
  symbol : String
  decimals : Nat
  total_supply : Nat
  deriving DecidableEq, Repr

/-- `AmmFees` from `crate::interface`. -/
structure AmmFees where
  lp_fee_volatile : Nat
  lp_fee_stable : Nat
  protocol_fee_volatile : Nat
  protocol_fee_stable : Nat
  deriving DecidableEq, Repr

/-- The tri-state ownership value `State` from `crate::interface`. -/
inductive State where
  | Uninitialized
  | Initialized (owner : Identity)
  | Revoked
  deriving DecidableEq, Repr

/-- The two non-committing execution fidelities of `fuels::prelude::Execution`. -/
inductive Execution where
  | StateReadOnly
  | Realistic
  deriving DecidableEq, Repr

/-- `fuels::types::transaction_builders::VariableOutputPolicy`. -/
inductive VariableOutputPolicy where
  | EstimateMinimum
  | Exactly (n : Nat)
  deriving DecidableEq, Repr

/-- `fuels::prelude::TxPolicies`, restricted to the one knob this module
touches: the maximum-fee ceiling (absent in `TxPolicies::default()`). -/
structure TxPolicies where
  maxFee : Option Nat
  deriving DecidableEq, Repr

/-- `TxPolicies::default()`: no maximum fee set. -/
def TxPolicies.default : TxPolicies := { maxFee := none }

/-- `TxPolicies::with_max_fee`. -/
def TxPolicies.with_max_fee (p : TxPolicies) (mf : Nat) : TxPolicies :=
  { p with maxFee := some mf }

/-- `fn sufficient_tx_policies()` (source lines 29–31): the bounded fee
ceiling every read-only query uses. -/
def sufficient_tx_policies : TxPolicies :=
  TxPolicies.default.with_max_fee 1000000000

/-- Outcome of a Rust function returning `Result` whose body may also call
`.unwrap()`: a value, an error return, or abnormal termination (panic). -/
inductive Outcome (α : Type) where
  | ok (value : α)
  | err (e : Err)
  | panicked
  deriving DecidableEq, Repr

/-- `true` exactly on an error return (`Outcome.err`); a panic is not an
error return. -/
def Outcome.isErr : Outcome α → Bool
  | Outcome.err _ => true
  | _ => false

/-- Rust `?` on a `Result`: an error short-circuits as an error return. -/
def tryO : Except Err α → (α → Outcome β) → Outcome β
  | Except.error e, _ => Outcome.err e
  | Except.ok a, k => k a

/-- Rust `.unwrap()` on a `Result`: an error terminates abnormally. -/
def unwrapO : Except Err α → (α → Outcome β) → Outcome β
  | Except.error _, _ => Outcome.panicked
  | Except.ok a, k => k a

/-- Rust `.unwrap()` on the result of a state-passing simulation call:
the world component is kept, the error collapses to a panic. -/
def unwrapSim {W : Type} : Except Err α × W → Outcome α × W
  | (Except.error _, w) => (Outcome.panicked, w)
  | (Except.ok a, w) => (Outcome.ok a, w)

/-- One of the four pre-compiled operation scripts, after construction:
its binary, the account it runs as, and the AMM contract id stored in its
`AMM_CONTRACT_ID` configurable slot. -/
structure ScriptHandle where
  binary : String
  account : Identity
  amm_contract_id : ContractId
  deriving DecidableEq, Repr

/-- The facade `struct ReadonlyMiraAmm` (source lines 19–27). -/
structure ReadonlyMiraAmm where
  provider : Provider
  simulation_account : Identity
  amm_contract : ContractId
  add_liquidity_script : ScriptHandle
  remove_liquidity_script : ScriptHandle
  swap_exact_input_script : ScriptHandle
  swap_exact_output_script : ScriptHandle
  deriving DecidableEq, Repr

/-- `ReadonlyMiraAmm::id` (source lines 86–88). -/
def ReadonlyMiraAmm.id (self : ReadonlyMiraAmm) : ContractId :=
  self.amm_contract

/-- Arguments of `AddLiquidityScript::main`. -/
structure AddLiquidityArgs where
  pool_id : PoolId
  amount_0_desired : Nat
  amount_1_desired : Nat
  amount_0_min : Nat
  amount_1_min : Nat
  recipient : Identity
  deadline : Nat
  deriving DecidableEq, Repr

/-- Arguments of `RemoveLiquidityScript::main`. -/
structure RemoveLiquidityArgs where
  pool_id : PoolId
  liquidity : Nat
  amount_0_min : Nat
  amount_1_min : Nat
  recipient : Identity
  deadline : Nat
  deriving DecidableEq, Repr

/-- Arguments of `SwapExactInputScript::main`. -/
structure SwapExactInputArgs where
  amount_in : Nat
  asset_in : AssetId
  amount_out_min : Nat
  pools : List PoolId
  recipient : Identity
  deadline : Nat
  deriving DecidableEq, Repr

/-- Arguments of `SwapExactOutputScript::main`. -/
structure SwapExactOutputArgs where
  amount_out : Nat
  asset_out : AssetId
  amount_in_max : Nat
  pools : List PoolId
  recipient : Identity
  deadline : Nat
  deriving DecidableEq, Repr

/-- The assembled transaction template handed to the simulation executor:
the script with its `main` arguments, and every knob the builder chain in
the source sets (`with_tx_policies`, `with_contracts`, `with_inputs`,
`with_outputs`, `with_variable_output_policy`, and the `Execution` mode
passed to `simulate`). -/
structure ScriptCall (α : Type) where
  script : ScriptHandle
  args : α
  tx_policies : TxPolicies
  contracts : List ContractId
  inputs : List TxInput
  outputs : List TxOutput
  variable_output_policy : VariableOutputPolicy
  mode : Execution

/-- The collaborators of the facade, state-passing over an abstract world
`W`: the external input/output resolver, the four script simulators, and
the nine read-only contract methods (each receiving the contract id the
facade is bound to, the fee policy, and the execution mode the facade
selects). -/
structure Env (W : Type) where
  get_transaction_inputs_outputs :
    Identity → List (AssetId × Nat) → W → (List TxInput × List TxOutput) × W
  run_add_liquidity : ScriptCall AddLiquidityArgs → W → Except Err Asset × W
  run_remove_liquidity : ScriptCall RemoveLiquidityArgs → W → Except Err (Nat × Nat) × W
  run_swap_exact_input :
    ScriptCall SwapExactInputArgs → W → Except Err (List (Nat × AssetId)) × W
  run_swap_exact_output :
    ScriptCall SwapExactOutputArgs → W → Except Err (List (Nat × AssetId)) × W
  call_pool_metadata :
    ContractId → PoolId → TxPolicies → Execution → W → Except Err (Option PoolMetadata) × W
  call_fees : ContractId → TxPolicies → Execution → W → Except Err (Nat × Nat × Nat × Nat) × W
  call_hook : ContractId → TxPolicies → Execution → W → Except Err (Option ContractId) × W
  call_total_assets : ContractId → TxPolicies → Execution → W → Except Err Nat × W
  call_name : ContractId → AssetId → TxPolicies → Execution → W → Except Err (Option String) × W
  call_symbol : ContractId → AssetId → TxPolicies → Execution → W → Except Err (Option String) × W
  call_decimals : ContractId → AssetId → TxPolicies → Execution → W → Except Err (Option Nat) × W
  call_total_supply :
    ContractId → AssetId → TxPolicies → Execution → W → Except Err (Option Nat) × W
  call_owner : ContractId → TxPolicies → Execution → W → Except Err State × W

/-- Modelled from the spec: `READONLY_PRIVATE_KEY` is a compiled-in constant
of `crate::constants`, a file not among those provided; §4.1 and §9 of the
spec describe it as a fixed, well-known private-key string whose value is
opaque to this module. -/
def READONLY_PRIVATE_KEY : String := "readonly-private-key"

/-- Modelled from the spec: `DEFAULT_AMM_CONTRACT_ID` is a compiled-in
constant of `crate::constants`, not among the files provided; the spec
(§4.1) describes it as the compiled-in default contract address string. -/
def DEFAULT_AMM_CONTRACT_ID : String := "default-amm-contract-id"

/-- Modelled from the spec: script-binary location constant of
`crate::interface`, not among the files provided; its value is opaque. -/
def ADD_LIQUIDITY_SCRIPT_BINARY_PATH : String := "add-liquidity-script-binary"

/-- Modelled from the spec: script-binary location constant of
`crate::interface`, not among the files provided; its value is opaque. -/
def REMOVE_LIQUIDITY_SCRIPT_BINARY_PATH : String := "remove-liquidity-script-binary"

/-- Modelled from the spec: script-binary location constant of
`crate::interface`, not among the files provided; its value is opaque. -/
def SWAP_EXACT_INPUT_SCRIPT_BINARY_PATH : String := "swap-exact-input-script-binary"

/-- Modelled from the spec: script-binary location constant of
`crate::interface`, not among the files provided; its value is opaque. -/
def SWAP_EXACT_OUTPUT_SCRIPT_BINARY_PATH : String := "swap-exact-output-script-binary"

/-- Modelled from the spec: `get_lp_asset_id` lives in `crate::utils`, which
is not among the files provided.  The spec (§4.2, `preview_remove_liquidity`
call site) only says the LP asset is derived from the bound contract and the
pool identity; an injective pairing stands in for the concrete derivation. -/
def get_lp_asset_id (contract : ContractId) (pool_id : PoolId) : AssetId :=
  Nat.pair contract (Nat.pair pool_id.fst (Nat.pair pool_id.snd (cond pool_id.isStable 1 0)))

/-- Modelled from the spec: `get_asset_id_in` lives in `crate::utils`, which
is not among the files provided.  The spec describes it as walking the
caller-supplied pool sequence backwards from the terminal output asset
(§2, §4.4), at each hop replacing the current asset by the hop's other
asset, ending at the asset the caller actually spends. -/
def get_asset_id_in (asset_id_out : AssetId) (pools : List PoolId) : AssetId :=
  pools.foldr
    (fun pool asset => if pool.fst = asset then pool.snd else pool.fst)
    asset_id_out

/-- The collaborators `connect` uses, each fallible: parsing the fixed
private-key string, parsing the default contract-id string, and encoding a
contract id into a script's `AMM_CONTRACT_ID` configurable slot (the Rust
`with_AMM_CONTRACT_ID`, whose success value is the stored binding). -/
structure ConnectEnv where
  parse_secret_key : String → Except Err SecretKey
  parse_contract_id : String → Except Err ContractId
  with_amm_contract_id : ContractId → Except Err ContractId

/-- `ReadonlyMiraAmm::connect` (source lines 34–84).  The key parse uses
Rust `?` (`tryO`); the default-address parse and the four configurable
writes use `.unwrap()` (`unwrapO`).  Note the Rust
`contract_id.unwrap_or(ContractId::from_str(DEFAULT_AMM_CONTRACT_ID).unwrap())`
evaluates the default (and its `.unwrap()`) eagerly, before choosing; the
wallet derived from the parsed key is the simulation account and every
script runs as it. -/
def connect (env : ConnectEnv) (provider : Provider) (contract_id : Option ContractId) :
    Outcome ReadonlyMiraAmm :=
  tryO (env.parse_secret_key READONLY_PRIVATE_KEY) fun readonly_secret_key =>
  unwrapO (env.parse_contract_id DEFAULT_AMM_CONTRACT_ID) fun default_contract_id =>
  unwrapO (env.with_amm_contract_id (contract_id.getD default_contract_id)) fun cfg_add =>
  unwrapO (env.with_amm_contract_id (contract_id.getD default_contract_id)) fun cfg_remove =>
  unwrapO (env.with_amm_contract_id (contract_id.getD default_contract_id)) fun cfg_swap_in =>
  unwrapO (env.with_amm_contract_id (contract_id.getD default_contract_id)) fun cfg_swap_out =>
  Outcome.ok
    { provider := provider
      simulation_account := readonly_secret_key
      amm_contract := contract_id.getD default_contract_id
      add_liquidity_script :=
        { binary := ADD_LIQUIDITY_SCRIPT_BINARY_PATH
          account := readonly_secret_key
          amm_contract_id := cfg_add }
      remove_liquidity_script :=
        { binary := REMOVE_LIQUIDITY_SCRIPT_BINARY_PATH
          account := readonly_secret_key
          amm_contract_id := cfg_remove }
      swap_exact_input_script :=
        { binary := SWAP_EXACT_INPUT_SCRIPT_BINARY_PATH
          account := readonly_secret_key
          amm_contract_id := cfg_swap_in }
      swap_exact_output_script :=
        { binary := SWAP_EXACT_OUTPUT_SCRIPT_BINARY_PATH
          account := readonly_secret_key
          amm_contract_id := cfg_swap_out } }

/-- `ReadonlyMiraAmm::pool_metadata` (source lines 90–99): one contract call
with the bounded fee ceiling, state-read-only mode, error propagated by `?`. -/
def ReadonlyMiraAmm.pool_metadata {W : Type} (self : ReadonlyMiraAmm) (env : Env W)
    (pool_id : PoolId) (w : W) : Except Err (Option PoolMetadata) × W :=
  match env.call_pool_metadata self.amm_contract pool_id sufficient_tx_policies
      Execution.StateReadOnly w with
  | (Except.error e, w1) => (Except.error e, w1)
  | (Except.ok v, w1) => (Except.ok v, w1)

/-- `ReadonlyMiraAmm::fees` (source lines 101–116). -/
def ReadonlyMiraAmm.fees {W : Type} (self : ReadonlyMiraAmm) (env : Env W) (w : W) :
    Except Err AmmFees × W :=
  match env.call_fees self.amm_contract sufficient_tx_policies Execution.StateReadOnly w with
  | (Except.error e, w1) => (Except.error e, w1)
  | (Except.ok (lp_fee_volatile, lp_fee_stable, protocol_fee_volatile, protocol_fee_stable), w1) =>
      (Except.ok
        { lp_fee_volatile := lp_fee_volatile
          lp_fee_stable := lp_fee_stable
          protocol_fee_volatile := protocol_fee_volatile
          protocol_fee_stable := protocol_fee_stable }, w1)

/-- `ReadonlyMiraAmm::hook` (source lines 118–127). -/
def ReadonlyMiraAmm.hook {W : Type} (self : ReadonlyMiraAmm) (env : Env W) (w : W) :
    Except Err (Option ContractId) × W :=
  match env.call_hook self.amm_contract sufficient_tx_policies Execution.StateReadOnly w with
  | (Except.error e, w1) => (Except.error e, w1)
  | (Except.ok v, w1) => (Except.ok v, w1)

/-- `ReadonlyMiraAmm::total_assets` (source lines 129–138). -/
def ReadonlyMiraAmm.total_assets {W : Type} (self : ReadonlyMiraAmm) (env : Env W) (w : W) :
    Except Err Nat × W :=
  match env.call_total_assets self.amm_contract sufficient_tx_policies
      Execution.StateReadOnly w with
  | (Except.error e, w1) => (Except.error e, w1)
  | (Except.ok v, w1) => (Except.ok v, w1)

/-- `ReadonlyMiraAmm::lp_asset_info` (source lines 140–186): four sequential
sub-queries, each with the bounded fee ceiling in state-read-only mode and
each propagating its error by `?`; a descriptor is assembled only when all
four values are present, otherwise the result is `none`. -/
def ReadonlyMiraAmm.lp_asset_info {W : Type} (self : ReadonlyMiraAmm) (env : Env W)
    (asset_id : AssetId) (w : W) : Except Err (Option LpAssetInfo) × W :=
  match env.call_name self.amm_contract asset_id sufficient_tx_policies
      Execution.StateReadOnly w with
  | (Except.error e, w1) => (Except.error e, w1)
  | (Except.ok name, w1) =>
  match env.call_symbol self.amm_contract asset_id sufficient_tx_policies
      Execution.StateReadOnly w1 with
  | (Except.error e, w2) => (Except.error e, w2)
  | (Except.ok symbol, w2) =>
  match env.call_decimals self.amm_contract asset_id sufficient_tx_policies
      Execution.StateReadOnly w2 with
  | (Except.error e, w3) => (Except.error e, w3)
  | (Except.ok decimals, w3) =>
  match env.call_total_supply self.amm_contract asset_id sufficient_tx_policies
      Execution.StateReadOnly w3 with
  | (Except.error e, w4) => (Except.error e, w4)
  | (Except.ok total_supply, w4) =>
  match (name, symbol, decimals, total_supply) with
  | (some name, some symbol, some decimals, some total_supply) =>
      (Except.ok (some
        { asset_id := asset_id
          name := name
          symbol := symbol
          decimals := decimals
          total_supply := total_supply }), w4)
  | _ => (Except.ok none, w4)

/-- `ReadonlyMiraAmm::owner` (source lines 188–202): one contract call, then
the tri-state value is collapsed to an optional identity. -/
def ReadonlyMiraAmm.owner {W : Type} (self : ReadonlyMiraAmm) (env : Env W) (w : W) :
    Except Err (Option Identity) × W :=
  match env.call_owner self.amm_contract sufficient_tx_policies Execution.StateReadOnly w with
  | (Except.error e, w1) => (Except.error e, w1)
  | (Except.ok ownership_state, w1) =>
  match ownership_state with
  | State.Uninitialized => (Except.ok none, w1)
  | State.Initialized owner => (Except.ok (some owner), w1)
  | State.Revoked => (Except.ok none, w1)

/-- `ReadonlyMiraAmm::preview_add_liquidity` (source lines 204–240): resolve
inputs/outputs for the two desired pool-asset spends, run the add-liquidity
script in state-read-only mode with the caller's policies (or the default),
one exact variable output, and `.unwrap()` the simulation result. -/
def ReadonlyMiraAmm.preview_add_liquidity {W : Type} (self : ReadonlyMiraAmm) (env : Env W)
    (pool_id : PoolId) (amount_0_desired amount_1_desired amount_0_min amount_1_min : Nat)
    (deadline : Nat) (tx_policies : Option TxPolicies) (w : W) : Outcome Asset × W :=
  match env.get_transaction_inputs_outputs self.simulation_account
      [(pool_id.fst, amount_0_desired), (pool_id.snd, amount_1_desired)] w with
  | ((inputs, outputs), w1) =>
    unwrapSim (env.run_add_liquidity
      { script := self.add_liquidity_script
        args :=
          { pool_id := pool_id
            amount_0_desired := amount_0_desired
            amount_1_desired := amount_1_desired
            amount_0_min := amount_0_min
            amount_1_min := amount_1_min
            recipient := self.simulation_account
            deadline := deadline }
        tx_policies := tx_policies.getD TxPolicies.default
        contracts := [self.amm_contract]
        inputs := inputs
        outputs := outputs
        variable_output_policy := VariableOutputPolicy.Exactly 1
        mode := Execution.StateReadOnly } w1)

/-- `ReadonlyMiraAmm::preview_remove_liquidity` (source lines 242–277): the
single spend is the pool's derived LP asset with the liquidity amount. -/
def ReadonlyMiraAmm.preview_remove_liquidity {W : Type} (self : ReadonlyMiraAmm) (env : Env W)
    (pool_id : PoolId) (liquidity amount_0_min amount_1_min : Nat)
    (deadline : Nat) (tx_policies : Option TxPolicies) (w : W) : Outcome (Nat × Nat) × W :=
  match env.get_transaction_inputs_outputs self.simulation_account
      [(get_lp_asset_id self.id pool_id, liquidity)] w with
  | ((inputs, outputs), w1) =>
    unwrapSim (env.run_remove_liquidity
      { script := self.remove_liquidity_script
        args :=
          { pool_id := pool_id
            liquidity := liquidity
            amount_0_min := amount_0_min
            amount_1_min := amount_1_min
            recipient := self.simulation_account
            deadline := deadline }
        tx_policies := tx_policies.getD TxPolicies.default
        contracts := [self.amm_contract]
        inputs := inputs
        outputs := outputs
        variable_output_policy := VariableOutputPolicy.Exactly 1
        mode := Execution.StateReadOnly } w1)

/-- `ReadonlyMiraAmm::preview_swap_exact_input` (source lines 279–311). -/
def ReadonlyMiraAmm.preview_swap_exact_input {W : Type} (self : ReadonlyMiraAmm) (env : Env W)
    (amount_in : Nat) (asset_in : AssetId) (amount_out_min : Nat) (pools : List PoolId)
    (deadline : Nat) (tx_policies : Option TxPolicies) (w : W) :
    Outcome (List (Nat × AssetId)) × W :=
  match env.get_transaction_inputs_outputs self.simulation_account [(asset_in, amount_in)] w with
  | ((inputs, outputs), w1) =>
    unwrapSim (env.run_swap_exact_input
      { script := self.swap_exact_input_script
        args :=
          { amount_in := amount_in
            asset_in := asset_in
            amount_out_min := amount_out_min
            pools := pools
            recipient := self.simulation_account
            deadline := deadline }
        tx_policies := tx_policies.getD TxPolicies.default
        contracts := [self.amm_contract]
        inputs := inputs
        outputs := outputs
        variable_output_policy := VariableOutputPolicy.Exactly 1
        mode := Execution.StateReadOnly } w1)

/-- `ReadonlyMiraAmm::swap_exact_output` (source lines 313–348): the spend
asset is resolved by `get_asset_id_in` from the terminal output asset and
the pool path, and the simulation runs in realistic mode. -/
def ReadonlyMiraAmm.swap_exact_output {W : Type} (self : ReadonlyMiraAmm) (env : Env W)
    (amount_out : Nat) (asset_out : AssetId) (amount_in_max : Nat) (pools : List PoolId)
    (deadline : Nat) (tx_policies : Option TxPolicies) (w : W) :
    Outcome (List (Nat × AssetId)) × W :=
  match env.get_transaction_inputs_outputs self.simulation_account
      [(get_asset_id_in asset_out pools, amount_in_max)] w with
  | ((inputs, outputs), w1) =>
    unwrapSim (env.run_swap_exact_output
      { script := self.swap_exact_output_script
        args :=
          { amount_out := amount_out
            asset_out := asset_out
            amount_in_max := amount_in_max
            pools := pools
            recipient := self.simulation_account
            deadline := deadline }
        tx_policies := tx_policies.getD TxPolicies.default
        contracts := [self.amm_contract]
        inputs := inputs
        outputs := outputs
        variable_output_policy := VariableOutputPolicy.Exactly 1
        mode := Execution.Realistic } w1)

/-! ### Instrumentation and sample environments used by the theorems below -/

/-- One observable interaction with a collaborator: either an invocation of
the input/output resolver (with the account and the spend list it was
given), a script simulation (with the template's binary, fee policy,
variable-output policy and execution mode), or a read-only contract call
(with its fee policy and execution mode). -/
inductive LogEntry where
  | builder (account : Identity) (spends : List (AssetId × Nat))
  | script (binary : String) (txp : TxPolicies) (vop : VariableOutputPolicy) (mode : Execution)
  | contract_call (txp : TxPolicies) (mode : Execution)
  deriving DecidableEq, Repr

/-- The execution modes of the script simulations in a trace, in order. -/
def loggedModes (t : List LogEntry) : List Execution :=
  t.filterMap fun e =>
    match e with
    | LogEntry.script _ _ _ m => some m
    | _ => none

/-- The variable-output policies of the script simulations in a trace. -/
def loggedVops (t : List LogEntry) : List VariableOutputPolicy :=
  t.filterMap fun e =>
    match e with
    | LogEntry.script _ _ v _ => some v
    | _ => none

/-- The fee policies of the script simulations in a trace. -/
def loggedScriptPolicies (t : List LogEntry) : List TxPolicies :=
  t.filterMap fun e =>
    match e with
    | LogEntry.script _ p _ _ => some p
    | _ => none

/-- The (account, spend list) arguments of the input/output-resolver
invocations in a trace. -/
def loggedSpends (t : List LogEntry) : List (Identity × List (AssetId × Nat)) :=
  t.filterMap fun e =>
    match e with
    | LogEntry.builder a s => some (a, s)
    | _ => none

/-- The fee policies of the read-only contract calls in a trace. -/
def loggedCallPolicies (t : List LogEntry) : List TxPolicies :=
  t.filterMap fun e =>
    match e with
    | LogEntry.contract_call p _ => some p
    | _ => none

/-- An environment that records every collaborator interaction in its world
(a trace of `LogEntry`) and always answers successfully with fixed values:
running an operation against it exposes exactly what the operation handed
to each collaborator. -/
def probeEnv : Env (List LogEntry) :=
  { get_transaction_inputs_outputs := fun a s w => (([], []), w ++ [LogEntry.builder a s])
    run_add_liquidity := fun c w =>
      (Except.ok { id := 0, amount := 0 },
        w ++ [LogEntry.script c.script.binary c.tx_policies c.variable_output_policy c.mode])
    run_remove_liquidity := fun c w =>
      (Except.ok (0, 0),
        w ++ [LogEntry.script c.script.binary c.tx_policies c.variable_output_policy c.mode])
    run_swap_exact_input := fun c w =>
      (Except.ok [],
        w ++ [LogEntry.script c.script.binary c.tx_policies c.variable_output_policy c.mode])
    run_swap_exact_output := fun c w =>
      (Except.ok [],
        w ++ [LogEntry.script c.script.binary c.tx_policies c.variable_output_policy c.mode])
    call_pool_metadata := fun _ _ p m w =>
      (Except.ok none, w ++ [LogEntry.contract_call p m])
    call_fees := fun _ p m w => (Except.ok (0, 0, 0, 0), w ++ [LogEntry.contract_call p m])
    call_hook := fun _ p m w => (Except.ok none, w ++ [LogEntry.contract_call p m])
    call_total_assets := fun _ p m w => (Except.ok 0, w ++ [LogEntry.contract_call p m])
    call_name := fun _ _ p m w =>
      (Except.ok (some "MIRA-LP"), w ++ [LogEntry.contract_call p m])
    call_symbol := fun _ _ p m w =>
      (Except.ok (some "MLP"), w ++ [LogEntry.contract_call p m])
    call_decimals := fun _ _ p m w => (Except.ok (some 9), w ++ [LogEntry.contract_call p m])
    call_total_supply := fun _ _ p m w =>
      (Except.ok (some 1000), w ++ [LogEntry.contract_call p m])
    call_owner := fun _ p m w =>
      (Except.ok State.Uninitialized, w ++ [LogEntry.contract_call p m]) }

/-- A world-preserving environment in which every collaborator call succeeds
with a fixed value; used to instantiate theorems at concrete inputs. -/
def pureEnv : Env Unit :=
  { get_transaction_inputs_outputs := fun _ _ w => (([], []), w)
    run_add_liquidity := fun _ w => (Except.ok { id := 3, amount := 12 }, w)
    run_remove_liquidity := fun _ w => (Except.ok (5, 6), w)
    run_swap_exact_input := fun _ w => (Except.ok [(100, 1), (90, 2)], w)
    run_swap_exact_output := fun _ w => (Except.ok [(110, 1), (100, 2)], w)
    call_pool_metadata := fun _ _ _ _ w => (Except.ok (some 77), w)
    call_fees := fun _ _ _ w => (Except.ok (30, 5, 0, 0), w)
    call_hook := fun _ _ _ w => (Except.ok none, w)
    call_total_assets := fun _ _ _ w => (Except.ok 2, w)
    call_name := fun _ _ _ _ w => (Except.ok (some "MIRA-LP"), w)
    call_symbol := fun _ _ _ _ w => (Except.ok (some "MLP"), w)
    call_decimals := fun _ _ _ _ w => (Except.ok (some 9), w)
    call_total_supply := fun _ _ _ _ w => (Except.ok (some 1000), w)
    call_owner := fun _ _ _ w => (Except.ok (State.Initialized 42), w) }

/-- An environment in which every script simulation fails with error `7`
(and every other collaborator call succeeds): the concrete scenario in
which the Rust source's `.unwrap()` on the simulation result fires. -/
def failEnv : Env Unit :=
  { get_transaction_inputs_outputs := fun _ _ w => (([], []), w)
    run_add_liquidity := fun _ w => (Except.error 7, w)
    run_remove_liquidity := fun _ w => (Except.error 7, w)
    run_swap_exact_input := fun _ w => (Except.error 7, w)
    run_swap_exact_output := fun _ w => (Except.error 7, w)
    call_pool_metadata := fun _ _ _ _ w => (Except.ok none, w)
    call_fees := fun _ _ _ w => (Except.ok (0, 0, 0, 0), w)
    call_hook := fun _ _ _ w => (Except.ok none, w)
    call_total_assets := fun _ _ _ w => (Except.ok 0, w)
    call_name := fun _ _ _ _ w => (Except.ok none, w)
    call_symbol := fun _ _ _ _ w => (Except.ok none, w)
    call_decimals := fun _ _ _ _ w => (Except.ok none, w)
    call_total_supply := fun _ _ _ _ w => (Except.ok none, w)
    call_owner := fun _ _ _ w => (Except.ok State.Revoked, w) }

/-- A concrete facade value used to instantiate theorems. -/
def sampleAmm : ReadonlyMiraAmm :=
  { provider := 0
    simulation_account := 7
    amm_contract := 5
    add_liquidity_script :=
      { binary := ADD_LIQUIDITY_SCRIPT_BINARY_PATH, account := 7, amm_contract_id := 5 }
    remove_liquidity_script :=
      { binary := REMOVE_LIQUIDITY_SCRIPT_BINARY_PATH, account := 7, amm_contract_id := 5 }
    swap_exact_input_script :=
      { binary := SWAP_EXACT_INPUT_SCRIPT_BINARY_PATH, account := 7, amm_contract_id := 5 }
    swap_exact_output_script :=
      { binary := SWAP_EXACT_OUTPUT_SCRIPT_BINARY_PATH, account := 7, amm_contract_id := 5 } }

/-- A construction environment in which every collaborator succeeds and the
configurable write stores exactly the id it is given. -/
def goodConnectEnv : ConnectEnv :=
  { parse_secret_key := fun _ => Except.ok 11
    parse_contract_id := fun _ => Except.ok 99
    with_amm_contract_id := fun c => Except.ok c }

/-- A construction environment in which writing the `AMM_CONTRACT_ID`
configurable slot fails with error `3`. -/
def badConnectEnv : ConnectEnv :=
  { parse_secret_key := fun _ => Except.ok 11
    parse_contract_id := fun _ => Except.ok 99
    with_amm_contract_id := fun _ => Except.error 3 }

/-- The collaborator contract the previews rely on (spec §5, §6): the
input/output resolver and the four script simulations are non-mutating, so
each returns the world it was given. -/
def Env.ReadOnly {W : Type} (env : Env W) : Prop :=
  (∀ a s w, (env.get_transaction_inputs_outputs a s w).2 = w) ∧
  (∀ c w, (env.run_add_liquidity c w).2 = w) ∧
  (∀ c w, (env.run_remove_liquidity c w).2 = w) ∧
  (∀ c w, (env.run_swap_exact_input c w).2 = w) ∧
  (∀ c w, (env.run_swap_exact_output c w).2 = w)

/-- `unwrapSim` keeps the world component of its argument. -/
theorem unwrapSim_snd {W : Type} {α : Type} (p : Except Err α × W) : (unwrapSim p).2 = p.2 := by
  rcases p with ⟨r, w⟩
  cases r <;> rfl

/-- C2: preview_add_liquidity, preview_remove_liquidity and
preview_swap_exact_input always execute their assembled template in the
state-read-only simulation mode, and swap_exact_output always executes its
template in the realistic mode; each run performs exactly one script
simulation, so no other mode is ever selected. -/
theorem claim_C2_execution_modes (self : ReadonlyMiraAmm) (pool_id : PoolId)
    (a0 a1 m0 m1 liq dl amount_in amount_out_min amount_out amount_in_max : Nat)
    (asset_in asset_out : AssetId) (pools : List PoolId) (txp : Option TxPolicies) :
    loggedModes (self.preview_add_liquidity probeEnv pool_id a0 a1 m0 m1 dl txp []).2 =
      [Execution.StateReadOnly] ∧
    loggedModes (self.preview_remove_liquidity probeEnv pool_id liq m0 m1 dl txp []).2 =
      [Execution.StateReadOnly] ∧
    loggedModes
        (self.preview_swap_exact_input probeEnv amount_in asset_in amount_out_min pools
          dl txp []).2 =
      [Execution.StateReadOnly] ∧
    loggedModes
        (self.swap_exact_output probeEnv amount_out asset_out amount_in_max pools dl txp []).2 =
      [Execution.Realistic] :=
  ⟨rfl, rfl, rfl, rfl⟩

/-- C6: every one of the four preview operations builds its transaction
template with variable-output policy `Exactly 1` — one synthetic change
output, never zero, never more — whatever the operation's parameters. -/
theorem claim_C6_variable_output_policy (self : ReadonlyMiraAmm) (pool_id : PoolId)
    (a0 a1 m0 m1 liq dl amount_in amount_out_min amount_out amount_in_max : Nat)
    (asset_in asset_out : AssetId) (pools : List PoolId) (txp : Option TxPolicies) :
    loggedVops (self.preview_add_liquidity probeEnv pool_id a0 a1 m0 m1 dl txp []).2 =
      [VariableOutputPolicy.Exactly 1] ∧
    loggedVops (self.preview_remove_liquidity probeEnv pool_id liq m0 m1 dl txp []).2 =
      [VariableOutputPolicy.Exactly 1] ∧
    loggedVops
        (self.preview_swap_exact_input probeEnv amount_in asset_in amount_out_min pools
          dl txp []).2 =
      [VariableOutputPolicy.Exactly 1] ∧
    loggedVops
        (self.swap_exact_output probeEnv amount_out asset_out amount_in_max pools dl txp []).2 =
      [VariableOutputPolicy.Exactly 1] :=
  ⟨rfl, rfl, rfl, rfl⟩

/-- C7: each preview operation hands the input/output resolver exactly its
declared spend list: the pool's two assets with the desired amounts for
add-liquidity, the derived LP asset with the liquidity amount for
remove-liquidity, `(asset_in, amount_in)` for swap-exact-input, and the
resolved input asset with `amount_in_max` for swap-exact-output. -/
theorem claim_C7_declared_spends (self : ReadonlyMiraAmm) (pool_id : PoolId)
    (a0 a1 m0 m1 liq dl amount_in amount_out_min amount_out amount_in_max : Nat)
    (asset_in asset_out : AssetId) (pools : List PoolId) (txp : Option TxPolicies) :
    loggedSpends (self.preview_add_liquidity probeEnv pool_id a0 a1 m0 m1 dl txp []).2 =
      [(self.simulation_account, [(pool_id.fst, a0), (pool_id.snd, a1)])] ∧
    loggedSpends (self.preview_remove_liquidity probeEnv pool_id liq m0 m1 dl txp []).2 =
      [(self.simulation_account, [(get_lp_asset_id self.id pool_id, liq)])] ∧
    loggedSpends
        (self.preview_swap_exact_input probeEnv amount_in asset_in amount_out_min pools
          dl txp []).2 =
      [(self.simulation_account, [(asset_in, amount_in)])] ∧
    loggedSpends
        (self.swap_exact_output probeEnv amount_out asset_out amount_in_max pools dl txp []).2 =
      [(self.simulation_account, [(get_asset_id_in asset_out pools, amount_in_max)])] :=
  ⟨rfl, rfl, rfl, rfl⟩

/-- C5: for a swap-exact-output path `[(A,B), (B,C)]` with terminal output
asset `C` (adjacent hop assets distinct), the spend asset handed to the
input/output resolver is `A`, the first hop's asset that is not the path's
terminal output asset; the single-hop case `[(A,C)]` resolves to `A` as
well. -/
theorem claim_C5_resolved_spend_asset (self : ReadonlyMiraAmm) (A B C : AssetId)
    (s1 s2 : Bool) (amount_out amount_in_max dl : Nat) (txp : Option TxPolicies)
    (hAB : A ≠ B) (hBC : B ≠ C) (hAC : A ≠ C) :
    loggedSpends
        (self.swap_exact_output probeEnv amount_out C amount_in_max
          [{ fst := A, snd := B, isStable := s1 }, { fst := B, snd := C, isStable := s2 }]
          dl txp []).2 =
      [(self.simulation_account, [(A, amount_in_max)])] ∧
    loggedSpends
        (self.swap_exact_output probeEnv amount_out C amount_in_max
          [{ fst := A, snd := C, isStable := s1 }] dl txp []).2 =
      [(self.simulation_account, [(A, amount_in_max)])] := by
  have hfst : get_asset_id_in C
      [{ fst := A, snd := B, isStable := s1 }, { fst := B, snd := C, isStable := s2 }] = A := by
    simp [get_asset_id_in, hBC, hAB]
  have hone : get_asset_id_in C [{ fst := A, snd := C, isStable := s1 }] = A := by
    simp [get_asset_id_in, hAC]
  constructor
  · simp [ReadonlyMiraAmm.swap_exact_output, probeEnv, loggedSpends, unwrapSim, hfst]
  · simp [ReadonlyMiraAmm.swap_exact_output, probeEnv, loggedSpends, unwrapSim, hone]

/-- C5 witness: the theorem applied at assets `A = 0`, `B = 1`, `C = 2`. -/
theorem claim_C5_witness :
    loggedSpends
        (sampleAmm.swap_exact_output probeEnv 500 2 100
          [{ fst := 0, snd := 1, isStable := false }, { fst := 1, snd := 2, isStable := false }]
          99 none []).2 =
      [(sampleAmm.simulation_account, [(0, 100)])] :=
  (claim_C5_resolved_spend_asset sampleAmm 0 1 2 false false 500 100 99 none
    (by decide) (by decide) (by decide)).1

/-- C10: with no caller fee-policy override, each of the four preview
operations simulates under `TxPolicies::default()`, which differs from the
bounded `sufficient_tx_policies` (maximum fee 1,000,000,000) that every
read-only query (pool_metadata, fees, hook, total_assets, lp_asset_info,
owner) always passes to its contract call. -/
theorem claim_C10_default_policies (self : ReadonlyMiraAmm) (pool_id : PoolId)
    (a0 a1 m0 m1 liq dl amount_in amount_out_min amount_out amount_in_max : Nat)
    (asset_in asset_out asset_id : AssetId) (pools : List PoolId) :
    loggedScriptPolicies
        (self.preview_add_liquidity probeEnv pool_id a0 a1 m0 m1 dl none []).2 =
      [TxPolicies.default] ∧
    loggedScriptPolicies
        (self.preview_remove_liquidity probeEnv pool_id liq m0 m1 dl none []).2 =
      [TxPolicies.default] ∧
    loggedScriptPolicies
        (self.preview_swap_exact_input probeEnv amount_in asset_in amount_out_min pools
          dl none []).2 =
      [TxPolicies.default] ∧
    loggedScriptPolicies
        (self.swap_exact_output probeEnv amount_out asset_out amount_in_max pools dl none []).2 =
      [TxPolicies.default] ∧
    TxPolicies.default ≠ sufficient_tx_policies ∧
    loggedCallPolicies (self.pool_metadata probeEnv pool_id []).2 = [sufficient_tx_policies] ∧
    loggedCallPolicies (self.fees probeEnv []).2 = [sufficient_tx_policies] ∧
    loggedCallPolicies (self.hook probeEnv []).2 = [sufficient_tx_policies] ∧
    loggedCallPolicies (self.total_assets probeEnv []).2 = [sufficient_tx_policies] ∧
    loggedCallPolicies (self.lp_asset_info probeEnv asset_id []).2 =
      [sufficient_tx_policies, sufficient_tx_policies, sufficient_tx_policies,
        sufficient_tx_policies] ∧
    loggedCallPolicies (self.owner probeEnv []).2 = [sufficient_tx_policies] :=
  ⟨rfl, rfl, rfl, rfl, by decide, rfl, rfl, rfl, rfl, rfl, rfl⟩

/-- C1 (the code at the failing input): when the underlying simulation call
fails — here every script simulation returns error `7` — each of the four
preview operations terminates abnormally (`Outcome.panicked`, the Rust
`.unwrap()` on the simulation result) instead of returning the failure as
an error result: the final conjuncts record that a panic is not an error
return. -/
theorem claim_C1_panic_on_simulation_failure :
    (sampleAmm.preview_add_liquidity failEnv { fst := 1, snd := 2, isStable := false }
        10 20 0 0 99 none ()).1 = Outcome.panicked ∧
    (sampleAmm.preview_remove_liquidity failEnv { fst := 1, snd := 2, isStable := false }
        10 0 0 99 none ()).1 = Outcome.panicked ∧
    (sampleAmm.preview_swap_exact_input failEnv 10 1 0
        [{ fst := 1, snd := 2, isStable := false }] 99 none ()).1 = Outcome.panicked ∧
    (sampleAmm.swap_exact_output failEnv 10 2 100
        [{ fst := 1, snd := 2, isStable := false }] 99 none ()).1 = Outcome.panicked ∧
    (sampleAmm.preview_add_liquidity failEnv { fst := 1, snd := 2, isStable := false }
        10 20 0 0 99 none ()).1.isErr = false ∧
    (sampleAmm.preview_remove_liquidity failEnv { fst := 1, snd := 2, isStable := false }
        10 0 0 99 none ()).1.isErr = false ∧
    (sampleAmm.preview_swap_exact_input failEnv 10 1 0
        [{ fst := 1, snd := 2, isStable := false }] 99 none ()).1.isErr = false ∧
    (sampleAmm.swap_exact_output failEnv 10 2 100
        [{ fst := 1, snd := 2, isStable := false }] 99 none ()).1.isErr = false :=
  ⟨rfl, rfl, rfl, rfl, rfl, rfl, rfl, rfl⟩

/-- C3: when the four sub-queries (name, symbol, decimals, total supply)
each return without transport error, `lp_asset_info` yields a present
descriptor exactly when all four values are present — the descriptor then
holds precisely the queried asset id and the four values — and yields
`none` as soon as any one value is absent. -/
theorem claim_C3_lp_asset_info_iff {W : Type} (env : Env W) (self : ReadonlyMiraAmm)
    (asset_id : AssetId) (w w1 w2 w3 w4 : W)
    (name symbol : Option String) (decimals total_supply : Option Nat)
    (hn : env.call_name self.amm_contract asset_id sufficient_tx_policies
      Execution.StateReadOnly w = (Except.ok name, w1))
    (hs : env.call_symbol self.amm_contract asset_id sufficient_tx_policies
      Execution.StateReadOnly w1 = (Except.ok symbol, w2))
    (hd : env.call_decimals self.amm_contract asset_id sufficient_tx_policies
      Execution.StateReadOnly w2 = (Except.ok decimals, w3))
    (ht : env.call_total_supply self.amm_contract asset_id sufficient_tx_policies
      Execution.StateReadOnly w3 = (Except.ok total_supply, w4)) :
    self.lp_asset_info env asset_id w =
      (Except.ok
        (match (name, symbol, decimals, total_supply) with
          | (some n, some s, some d, some t) =>
              some { asset_id := asset_id, name := n, symbol := s, decimals := d,
                     total_supply := t }
          | _ => none), w4) ∧
    ((match (name, symbol, decimals, total_supply) with
        | (some n, some s, some d, some t) =>
            some (LpAssetInfo.mk asset_id n s d t)
        | _ => none).isSome
      ↔ name.isSome ∧ symbol.isSome ∧ decimals.isSome ∧ total_supply.isSome) := by
  constructor
  · simp only [ReadonlyMiraAmm.lp_asset_info, hn, hs, hd, ht]
    cases name <;> cases symbol <;> cases decimals <;> cases total_supply <;> rfl
  · cases name <;> cases symbol <;> cases decimals <;> cases total_supply <;> simp

/-- C3 witness: the theorem applied to a concrete environment whose four
sub-queries all return present values; the descriptor is present and holds
exactly the queried asset id and the four values. -/
theorem claim_C3_witness :
    sampleAmm.lp_asset_info pureEnv 3 () =
      (Except.ok (some (LpAssetInfo.mk 3 "MIRA-LP" "MLP" 9 1000)), ()) :=
  (claim_C3_lp_asset_info_iff pureEnv sampleAmm 3 () () () () ()
    (some "MIRA-LP") (some "MLP") (some 9) (some 1000) rfl rfl rfl rfl).1

/-- C4: when the ownership call returns a tri-state value without transport
error, `owner` maps `Uninitialized` and `Revoked` to an absent owner and
`Initialized o` to `some o`; the three cases cover the whole tri-state, so
no other mapping occurs. -/
theorem claim_C4_owner_mapping {W : Type} (env : Env W) (self : ReadonlyMiraAmm)
    (w w1 : W) (st : State)
    (h : env.call_owner self.amm_contract sufficient_tx_policies
      Execution.StateReadOnly w = (Except.ok st, w1)) :
    (st = State.Uninitialized → self.owner env w = (Except.ok none, w1)) ∧
    (st = State.Revoked → self.owner env w = (Except.ok none, w1)) ∧
    (∀ o : Identity, st = State.Initialized o →
      self.owner env w = (Except.ok (some o), w1)) := by
  refine ⟨fun hu => ?_, fun hr => ?_, fun o hi => ?_⟩ <;>
    simp only [ReadonlyMiraAmm.owner, h] <;> subst_vars <;> rfl

/-- C4 witness: the theorem applied to a concrete environment whose
ownership call returns `Initialized 42`; the owner query returns `some 42`. -/
theorem claim_C4_witness :
    sampleAmm.owner pureEnv () = (Except.ok (some 42), ()) :=
  (claim_C4_owner_mapping pureEnv sampleAmm () () (State.Initialized 42) rfl).2.2 42 rfl

/-- C8 counterexample: at a concrete input where contract binding fails —
writing the `AMM_CONTRACT_ID` configurable slot returns error `3` —
`connect` terminates abnormally (`Outcome.panicked`, from the Rust
`.unwrap()` on `with_AMM_CONTRACT_ID`) and does not return an error
result, contrary to the claim. -/
theorem claim_C8_counterexample :
    connect badConnectEnv 0 (some 5) = Outcome.panicked ∧
    (connect badConnectEnv 0 (some 5)).isErr = false :=
  ⟨rfl, rfl⟩

/-- C8 as amended: `connect` returns an error when the fixed well-known
private key cannot be parsed; a contract-binding failure (parsing the
compiled-in default address, or writing a script's `AMM_CONTRACT_ID`
configurable slot) terminates abnormally instead of returning an error;
when every collaborator succeeds, it binds the AMM contract to the
caller-supplied contract address when one is given and to the compiled-in
default when none is given, and pre-binds all four operation templates to
that same contract address via their configuration slots. -/
theorem claim_C8_connect_amended (env : ConnectEnv) (provider : Provider)
    (contract_id : Option ContractId) :
    (∀ e, env.parse_secret_key READONLY_PRIVATE_KEY = Except.error e →
      connect env provider contract_id = Outcome.err e) ∧
    (∀ k dflt, env.parse_secret_key READONLY_PRIVATE_KEY = Except.ok k →
      env.parse_contract_id DEFAULT_AMM_CONTRACT_ID = Except.ok dflt →
      (∀ c, env.with_amm_contract_id c = Except.ok c) →
      connect env provider contract_id = Outcome.ok
        { provider := provider
          simulation_account := k
          amm_contract := contract_id.getD dflt
          add_liquidity_script :=
            { binary := ADD_LIQUIDITY_SCRIPT_BINARY_PATH
              account := k
              amm_contract_id := contract_id.getD dflt }
          remove_liquidity_script :=
            { binary := REMOVE_LIQUIDITY_SCRIPT_BINARY_PATH
              account := k
              amm_contract_id := contract_id.getD dflt }
          swap_exact_input_script :=
            { binary := SWAP_EXACT_INPUT_SCRIPT_BINARY_PATH
              account := k
              amm_contract_id := contract_id.getD dflt }
          swap_exact_output_script :=
            { binary := SWAP_EXACT_OUTPUT_SCRIPT_BINARY_PATH
              account := k
              amm_contract_id := contract_id.getD dflt } }) := by
  constructor
  · intro e he
    simp [connect, tryO, he]
  · intro k dflt hk hd hc
    simp [connect, tryO, unwrapO, hk, hd, hc]

/-- C8 witness: the amended theorem applied to a concrete succeeding
environment with a caller-supplied contract address `5`: the facade is
built, bound to `5`, with all four scripts bound to `5`. -/
theorem claim_C8_witness :
    connect goodConnectEnv 0 (some 5) = Outcome.ok
      { provider := 0
        simulation_account := 11
        amm_contract := 5
        add_liquidity_script :=
          { binary := ADD_LIQUIDITY_SCRIPT_BINARY_PATH, account := 11, amm_contract_id := 5 }
        remove_liquidity_script :=
          { binary := REMOVE_LIQUIDITY_SCRIPT_BINARY_PATH, account := 11, amm_contract_id := 5 }
        swap_exact_input_script :=
          { binary := SWAP_EXACT_INPUT_SCRIPT_BINARY_PATH, account := 11, amm_contract_id := 5 }
        swap_exact_output_script :=
          { binary := SWAP_EXACT_OUTPUT_SCRIPT_BINARY_PATH, account := 11,
            amm_contract_id := 5 } } :=
  (claim_C8_connect_amended goodConnectEnv 0 (some 5)).2 11 99 rfl rfl (fun _ => rfl)

/-- Against read-only collaborators, `preview_add_liquidity` returns the
world unchanged. -/
theorem preview_add_liquidity_world {W : Type} (self : ReadonlyMiraAmm) (env : Env W)
    (h : env.ReadOnly) (pool_id : PoolId) (a0 a1 m0 m1 dl : Nat)
    (txp : Option TxPolicies) (w : W) :
    (self.preview_add_liquidity env pool_id a0 a1 m0 m1 dl txp w).2 = w := by
  obtain ⟨h1, h2, _, _, _⟩ := h
  unfold ReadonlyMiraAmm.preview_add_liquidity
  rcases hio : env.get_transaction_inputs_outputs self.simulation_account
      [(pool_id.fst, a0), (pool_id.snd, a1)] w with ⟨⟨inputs, outputs⟩, w1⟩
  have hw1 : w1 = w := by
    have := h1 self.simulation_account [(pool_id.fst, a0), (pool_id.snd, a1)] w
    rw [hio] at this
    exact this
  rw [unwrapSim_snd, h2, hw1]

/-- Against read-only collaborators, `preview_remove_liquidity` returns the
world unchanged. -/
theorem preview_remove_liquidity_world {W : Type} (self : ReadonlyMiraAmm) (env : Env W)
    (h : env.ReadOnly) (pool_id : PoolId) (liq m0 m1 dl : Nat)
    (txp : Option TxPolicies) (w : W) :
    (self.preview_remove_liquidity env pool_id liq m0 m1 dl txp w).2 = w := by
  obtain ⟨h1, _, h3, _, _⟩ := h
  unfold ReadonlyMiraAmm.preview_remove_liquidity
  rcases hio : env.get_transaction_inputs_outputs self.simulation_account
      [(get_lp_asset_id self.id pool_id, liq)] w with ⟨⟨inputs, outputs⟩, w1⟩
  have hw1 : w1 = w := by
    have := h1 self.simulation_account [(get_lp_asset_id self.id pool_id, liq)] w
    rw [hio] at this
    exact this
  rw [unwrapSim_snd, h3, hw1]

/-- Against read-only collaborators, `preview_swap_exact_input` returns the
world unchanged. -/
theorem preview_swap_exact_input_world {W : Type} (self : ReadonlyMiraAmm) (env : Env W)
    (h : env.ReadOnly) (amount_in : Nat) (asset_in : AssetId) (amount_out_min : Nat)
    (pools : List PoolId) (dl : Nat) (txp : Option TxPolicies) (w : W) :
    (self.preview_swap_exact_input env amount_in asset_in amount_out_min pools dl txp w).2
      = w := by
  obtain ⟨h1, _, _, h4, _⟩ := h
  unfold ReadonlyMiraAmm.preview_swap_exact_input
  rcases hio : env.get_transaction_inputs_outputs self.simulation_account
      [(asset_in, amount_in)] w with ⟨⟨inputs, outputs⟩, w1⟩
  have hw1 : w1 = w := by
    have := h1 self.simulation_account [(asset_in, amount_in)] w
    rw [hio] at this
    exact this
  rw [unwrapSim_snd, h4, hw1]

/-- Against read-only collaborators, `swap_exact_output` returns the world
unchanged. -/
theorem swap_exact_output_world {W : Type} (self : ReadonlyMiraAmm) (env : Env W)
    (h : env.ReadOnly) (amount_out : Nat) (asset_out : AssetId) (amount_in_max : Nat)
    (pools : List PoolId) (dl : Nat) (txp : Option TxPolicies) (w : W) :
    (self.swap_exact_output env amount_out asset_out amount_in_max pools dl txp w).2 = w := by
  obtain ⟨h1, _, _, _, h5⟩ := h
  unfold ReadonlyMiraAmm.swap_exact_output
  rcases hio : env.get_transaction_inputs_outputs self.simulation_account
      [(get_asset_id_in asset_out pools, amount_in_max)] w with ⟨⟨inputs, outputs⟩, w1⟩
  have hw1 : w1 = w := by
    have := h1 self.simulation_account [(get_asset_id_in asset_out pools, amount_in_max)] w
    rw [hio] at this
    exact this
  rw [unwrapSim_snd, h5, hw1]

/-- C9: under the collaborator contract that the input/output resolver and
the non-committing simulations leave the world untouched (spec §5, §6), a
preview is a pure function of its parameters and the world: it hands back
the world it was given (no hidden mutation — the facade itself is taken by
shared reference and never written), and a second invocation with the same
parameters, started from the world the first one returned, returns exactly
the first invocation's result. -/
theorem claim_C9_preview_idempotent {W : Type} (self : ReadonlyMiraAmm) (env : Env W)
    (h : env.ReadOnly) (pool_id : PoolId)
    (a0 a1 m0 m1 liq dl amount_in amount_out_min amount_out amount_in_max : Nat)
    (asset_in asset_out : AssetId) (pools : List PoolId) (txp : Option TxPolicies) (w : W) :
    ((self.preview_add_liquidity env pool_id a0 a1 m0 m1 dl txp w).2 = w ∧
      self.preview_add_liquidity env pool_id a0 a1 m0 m1 dl txp
          ((self.preview_add_liquidity env pool_id a0 a1 m0 m1 dl txp w).2) =
        self.preview_add_liquidity env pool_id a0 a1 m0 m1 dl txp w) ∧
    ((self.preview_remove_liquidity env pool_id liq m0 m1 dl txp w).2 = w ∧
      self.preview_remove_liquidity env pool_id liq m0 m1 dl txp
          ((self.preview_remove_liquidity env pool_id liq m0 m1 dl txp w).2) =
        self.preview_remove_liquidity env pool_id liq m0 m1 dl txp w) ∧
    ((self.preview_swap_exact_input env amount_in asset_in amount_out_min pools dl
        txp w).2 = w ∧
      self.preview_swap_exact_input env amount_in asset_in amount_out_min pools dl txp
          ((self.preview_swap_exact_input env amount_in asset_in amount_out_min pools dl
            txp w).2) =
        self.preview_swap_exact_input env amount_in asset_in amount_out_min pools dl txp w) ∧
    ((self.swap_exact_output env amount_out asset_out amount_in_max pools dl txp w).2 = w ∧
      self.swap_exact_output env amount_out asset_out amount_in_max pools dl txp
          ((self.swap_exact_output env amount_out asset_out amount_in_max pools dl txp w).2) =
        self.swap_exact_output env amount_out asset_out amount_in_max pools dl txp w) := by
  refine ⟨⟨?_, ?_⟩, ⟨?_, ?_⟩, ⟨?_, ?_⟩, ⟨?_, ?_⟩⟩
  · exact preview_add_liquidity_world self env h pool_id a0 a1 m0 m1 dl txp w
  · rw [preview_add_liquidity_world self env h pool_id a0 a1 m0 m1 dl txp w]
  · exact preview_remove_liquidity_world self env h pool_id liq m0 m1 dl txp w
  · rw [preview_remove_liquidity_world self env h pool_id liq m0 m1 dl txp w]
  · exact preview_swap_exact_input_world self env h amount_in asset_in amount_out_min
      pools dl txp w
  · rw [preview_swap_exact_input_world self env h amount_in asset_in amount_out_min
      pools dl txp w]
  · exact swap_exact_output_world self env h amount_out asset_out amount_in_max pools dl txp w
  · rw [swap_exact_output_world self env h amount_out asset_out amount_in_max pools dl txp w]

/-- C9 witness: the theorem applied to the concrete world-preserving
environment `pureEnv` at concrete parameters. -/
theorem claim_C9_witness :
    (sampleAmm.preview_add_liquidity pureEnv { fst := 1, snd := 2, isStable := false }
        100 200 1 1 99 none ()).2 = () ∧
    sampleAmm.preview_add_liquidity pureEnv { fst := 1, snd := 2, isStable := false }
        100 200 1 1 99 none
        ((sampleAmm.preview_add_liquidity pureEnv { fst := 1, snd := 2, isStable := false }
          100 200 1 1 99 none ()).2) =
      sampleAmm.preview_add_liquidity pureEnv { fst := 1, snd := 2, isStable := false }
        100 200 1 1 99 none () :=
  (claim_C9_preview_idempotent sampleAmm pureEnv
    ⟨fun _ _ _ => rfl, fun _ _ => rfl, fun _ _ => rfl, fun _ _ => rfl, fun _ _ => rfl⟩
    { fst := 1, snd := 2, isStable := false } 100 200 1 1 7 99 10 1 50 60 1 2
    [{ fst := 1, snd := 2, isStable := false }] none ()).1
